import Mathlib

/-!
Shallow embedding of the workflow execution engine and permission layer of the
form-builder repository (workflowService / permissionService), together with
theorems settling the specification claims about them.

Conventions: JavaScript optional / possibly-absent fields become `Option`;
JavaScript objects used as string-keyed maps become association lists with
last-binding-wins lookup (`jsGet`), so the object spread `\x7b...a, ...b\x7d`
becomes list append; fallible asynchronous calls become `Except`-valued
functions, and a `try/catch` that converts errors into a default becomes an
explicit `match` on the `Except`.
-/

namespace FormBuilder

/-! ## Workflow data model (workflowService.js) -/

/-- One entry of `workflowState.history`. -/
structure HistoryEntry where
  stage : String
  action : String
  user : String
  timestamp : Nat
  comments : String
  deriving Repr, DecidableEq

/-- A stage of a workflow definition: `role` and `users` are optional in the
stored JSON, `actions` is the list of allowed action names. -/
structure Stage where
  id : String
  name : String
  role : Option String
  users : Option (List String)
  actions : List String
  deriving Repr, DecidableEq

/-- A transition of a workflow definition; `action` unset means wildcard,
`condition` is opaque predicate data. -/
structure Transition where
  «from» : String
  «to» : String
  action : Option String
  condition : Option String
  deriving Repr, DecidableEq

/-- The part of a workflow definition read by `executeWorkflowAction`. -/
structure Workflow where
  stages : List Stage
  transitions : List Transition
  deriving Repr, DecidableEq

/-- The submission-embedded mutable workflow state. -/
structure WorkflowState where
  currentStage : Option String
  history : List HistoryEntry
  deriving Repr, DecidableEq

/-- The part of a form submission read and written by the workflow engine. -/
structure Submission where
  workflowState : Option WorkflowState
  status : String
  deriving Repr, DecidableEq

/-- The submission store, keyed by `submissionId` (formService.js is a
key-value gateway: `findOne \x7bsubmissionId\x7d` / `findOneAndUpdate`). -/
abbrev SubDB := List (String × Submission)

/-- `getFormSubmissionById` (formService.js): `findOne \x7bsubmissionId\x7d`. -/
def getFormSubmissionById (db : SubDB) (submissionId : String) : Option Submission :=
  (db.find? (fun p => p.1 == submissionId)).map Prod.snd

/-- `updateFormSubmission` (formService.js): `findOneAndUpdate` patching the
`workflowState` and `status` fields of the submission with the given id. -/
def updateFormSubmission (db : SubDB) (submissionId : String)
    (ws : WorkflowState) (status : String) : SubDB :=
  db.map (fun p =>
    bif p.1 == submissionId then (p.1, { workflowState := some ws, status := status }) else p)

/-- `checkUserRole` (workflowService.js): the source is an explicit stub —
"In a real implementation, you'd fetch the user and check their role.
For now, we'll assume the check passes" — and returns `true` unconditionally. -/
def checkUserRole (userId : String) (requiredRole : String) : Bool :=
  true

/-- `checkWorkflowPermission` (workflowService.js): the action must be listed
in `stageConfig.actions`; then `if (stageConfig.role && !checkUserRole(...))`
denies (JS truthiness: an unset or empty-string role skips the check); then a
non-empty `stageConfig.users` list decides by membership of `userId`. -/
def checkWorkflowPermission (stageConfig : Stage) (userId : String) (action : String) : Bool :=
  if !(stageConfig.actions.contains action) then
    false
  else if (match stageConfig.role with
           | some r => r != "" && !(checkUserRole userId r)
           | none => false) then
    false
  else
    match stageConfig.users with
    | some us => if us.length > 0 then us.contains userId else true
    | none => true

/-- The transition predicate of `findNextStage`:
`t.from === currentStage && (t.action === action || !t.action)`. -/
def transitionMatches (t : Transition) (currentStage : String) (action : String) : Bool :=
  t.«from» == currentStage && (t.action == some action || t.action == none)

/-- `findNextStage` (workflowService.js): first matching transition in
definition order; a `condition`, when present, is currently always treated as
satisfied, so both branches return `transition.to`. -/
def findNextStage (workflow : Workflow) (currentStage : String) (action : String) : Option String :=
  match workflow.transitions.find? (fun t => transitionMatches t currentStage action) with
  | some transition =>
    match transition.condition with
    | some _ => some transition.«to»
    | none => some transition.«to»
  | none => none

/-- `submission.workflowState?.currentStage || workflow.stages[0]?.id`:
the current stage is the recorded one, falling back to the first stage of the
definition when the state or its `currentStage` is absent. -/
def resolveCurrentStage (workflow : Workflow) (submission : Submission) : Option String :=
  match submission.workflowState with
  | some ws =>
    match ws.currentStage with
    | some cs => some cs
    | none => (workflow.stages.head?).map (fun s => s.id)
  | none => (workflow.stages.head?).map (fun s => s.id)

/-- Errors thrown by `executeWorkflowAction`. -/
inductive WfError where
  | notFound
  | invalidStage
  | forbidden
  deriving Repr, DecidableEq

/-- The value returned by a successful `executeWorkflowAction`. -/
structure WfResult where
  currentStage : Option String
  status : String
  history : List HistoryEntry
  deriving Repr, DecidableEq

/-- The history list of a submission, `[]` when no workflow state exists yet. -/
def submissionHistory (submission : Submission) : List HistoryEntry :=
  match submission.workflowState with
  | some ws => ws.history
  | none => []

/-- `executeWorkflowAction` (workflowService.js), with the store passed and
returned explicitly: load the submission, resolve and validate the current
stage, authorize via `checkWorkflowPermission`, look up the next stage, append
one history entry, advance the stage if a transition matched, derive the new
status from the action, persist via `updateFormSubmission`, and return
`\x7bcurrentStage, status, history\x7d`.  Every thrown error leaves the store
untouched and is returned as `Except.error`. -/
def executeWorkflowAction (workflow : Workflow) (db : SubDB) (submissionId : String)
    (action : String) (userId : String) (comments : String) (now : Nat) :
    SubDB × Except WfError WfResult :=
  match getFormSubmissionById db submissionId with
  | none => (db, Except.error WfError.notFound)
  | some submission =>
    match resolveCurrentStage workflow submission with
    | none => (db, Except.error WfError.invalidStage)
    | some currentStage =>
      match workflow.stages.find? (fun stage => stage.id == currentStage) with
      | none => (db, Except.error WfError.invalidStage)
      | some currentStageConfig =>
        if !(checkWorkflowPermission currentStageConfig userId action) then
          (db, Except.error WfError.forbidden)
        else
          let nextStage := findNextStage workflow currentStage action
          let ws0 : WorkflowState :=
            match submission.workflowState with
            | some ws => ws
            | none => { currentStage := (workflow.stages.head?).map (fun s => s.id), history := [] }
          let ws1 : WorkflowState :=
            { ws0 with history := ws0.history ++
                [{ stage := currentStage, action := action, user := userId,
                   timestamp := now, comments := comments }] }
          let ws2 : WorkflowState :=
            match nextStage with
            | some ns => { ws1 with currentStage := some ns }
            | none => ws1
          let newStatus :=
            if action == "approve" then
              (if nextStage.isSome then "in_review" else "approved")
            else if action == "reject" then "rejected"
            else if action == "submit" then "submitted"
            else submission.status
          let db2 := updateFormSubmission db submissionId ws2 newStatus
          (db2, Except.ok { currentStage := ws2.currentStage, status := newStatus, history := ws2.history })

/-! ## Permission data model (permissionService.js) -/

/-- One entry of a user's embedded `permissions` list of coarse global grants. -/
structure GlobalPerm where
  resource : String
  actions : List String
  deriving Repr, DecidableEq

/-- The part of a user record read by `checkPermission`; `permissions` is
`none` when the field is absent or not an array. -/
structure User where
  role : String
  permissions : Option (List GlobalPerm)
  deriving Repr, DecidableEq

/-- A JavaScript object used as a map from action name to boolean, embedded as
an association list where the last binding for a key wins (so object spread is
list append). -/
abbrev PermObj := List (String × Bool)

/-- A map from field name to a per-field action map. -/
abbrev FieldPermObj := List (String × PermObj)

/-- Lookup in a `PermObj`: the value of the last binding of `key`, `none` when
the key is absent. -/
def jsGet (obj : PermObj) (key : String) : Option Bool :=
  (obj.reverse.find? (fun p => p.1 == key)).map Prod.snd

/-- A stored `PermissionGrant` row/document. -/
structure Grant where
  id : Nat
  user : String
  resource : String
  resourceId : Option String
  permissions : Option PermObj
  fieldPermissions : Option FieldPermObj
  deriving Repr, DecidableEq

/-- The state visible to the permission service: the user store, the grant
store (in creation order, ids unique by construction), the next fresh grant
id, and two flags modelling a storage failure of the user lookup or of the
grant lookup. -/
structure PermDB where
  users : List (String × User)
  grants : List Grant
  nextId : Nat
  userErr : Bool
  grantErr : Bool
  deriving Repr, DecidableEq

/-- Modelled from the spec: the User Repository interface of §6,
`load(userId) -> User | NotFound` — the source imports `getUserById` from
`userService.js`, which is not part of the analysed tree.  A storage failure
is modelled by the `userErr` flag; otherwise the lookup returns the user
stored under `userId`, or `none`. -/
def getUserById (db : PermDB) (userId : String) : Except Unit (Option User) :=
  if db.userErr then Except.error ()
  else Except.ok ((db.users.find? (fun p => p.1 == userId)).map Prod.snd)

/-- The query built by `checkPermission`: `\x7buser, resource\x7d`, plus
`resourceId` when one was supplied (`if (resourceId) query.resourceId = ...`);
`findOne` matches a grant field-by-field against the query. -/
def grantMatchesQuery (g : Grant) (userId : String) (resource : String)
    (resourceId : Option String) : Bool :=
  g.user == userId && g.resource == resource &&
    (match resourceId with
     | none => true
     | some rid => g.resourceId == some rid)

/-- `PermissionModel.findOne(query)`: the first stored grant matching the
query, as an `Except` so that a storage failure (`grantErr`) propagates to the
caller's catch. -/
def findOneGrant (db : PermDB) (userId : String) (resource : String)
    (resourceId : Option String) : Except Unit (Option Grant) :=
  if db.grantErr then Except.error ()
  else Except.ok (db.grants.find? (fun g => grantMatchesQuery g userId resource resourceId))

/-- The embedded global-permission scan of `checkPermission`:
`user.permissions.find(perm => perm.resource === resource || perm.resource === '*')`
followed by `globalPermission.actions.includes(action)` on the single found
entry. -/
def globalScan (user : User) (resource : String) (action : String) : Bool :=
  match user.permissions with
  | some perms =>
    match perms.find? (fun perm => perm.resource == resource || perm.resource == "*") with
    | some globalPermission => globalPermission.actions.contains action
    | none => false
  | none => false

/-- The `try` body of `checkPermission` (permissionService.js): load the user
(absent user denies), short-circuit `super_admin` to allow, run the embedded
global scan, then look up a stored grant for the query and require
`permission.permissions[action] === true`.  Lookup errors propagate. -/
def checkPermissionE (db : PermDB) (userId : String) (resource : String)
    (action : String) (resourceId : Option String) : Except Unit Bool :=
  match getUserById db userId with
  | Except.error e => Except.error e
  | Except.ok none => Except.ok false
  | Except.ok (some user) =>
    if user.role == "super_admin" then
      Except.ok true
    else if globalScan user resource action then
      Except.ok true
    else
      match findOneGrant db userId resource resourceId with
      | Except.error e => Except.error e
      | Except.ok none => Except.ok false
      | Except.ok (some permission) =>
        match permission.permissions with
        | some perms => Except.ok (jsGet perms action == some true)
        | none => Except.ok false

/-- `checkPermission` with its surrounding `try/catch`: any error raised by
the body is caught and converted into a deny (`false`). -/
def checkPermission (db : PermDB) (userId : String) (resource : String)
    (action : String) (resourceId : Option String) : Bool :=
  match checkPermissionE db userId resource action resourceId with
  | Except.ok b => b
  | Except.error _ => false

/-- The stored-grant tail of `checkPermission` as a standalone decision (with
the catch applied): used to state what the call returns once the embedded
scan has failed. -/
def storedGrantDecision (db : PermDB) (userId : String) (resource : String)
    (action : String) (resourceId : Option String) : Bool :=
  match findOneGrant db userId resource resourceId with
  | Except.error _ => false
  | Except.ok none => false
  | Except.ok (some permission) =>
    match permission.permissions with
    | some perms => jsGet perms action == some true
    | none => false

/-! ## Grant management (permissionService.js) -/

/-- `createPermission`: insert a new grant document (creation order, fresh id). -/
def createPermission (db : PermDB) (userId : String) (resource : String)
    (resourceId : Option String) (permissions : PermObj)
    (fieldPermissions : Option FieldPermObj) : PermDB :=
  { db with
    grants := db.grants ++
      [{ id := db.nextId, user := userId, resource := resource, resourceId := resourceId,
         permissions := some permissions, fieldPermissions := fieldPermissions }],
    nextId := db.nextId + 1 }

/-- `updatePermission(id, \x7bpermissions, fieldPermissions\x7d)`: replace
those two fields of the grant with the given id. -/
def updatePermissionById (db : PermDB) (gid : Nat) (permissions : Option PermObj)
    (fieldPermissions : Option FieldPermObj) : PermDB :=
  { db with
    grants := db.grants.map (fun g =>
      bif g.id == gid then
        { g with permissions := permissions, fieldPermissions := fieldPermissions }
      else g) }

/-- `getUserPermissions(userId)`: all grants of the user, sorted by creation
time descending (the store is in creation order, so this is the reverse of the
filter). -/
def getUserPermissions (db : PermDB) (userId : String) : List Grant :=
  (db.grants.filter (fun g => g.user == userId)).reverse

/-- JavaScript object spread `\x7b...a, ...b\x7d` where `a` may be absent:
append, with later bindings (of `b`) overriding under `jsGet`. -/
def jsSpread (a : Option PermObj) (b : PermObj) : PermObj :=
  a.getD [] ++ b

/-- Object spread for field-permission maps. -/
def jsSpreadF (a : Option FieldPermObj) (b : FieldPermObj) : FieldPermObj :=
  a.getD [] ++ b

/-- `grantPermission` (permissionService.js): find the user's existing grant
for `(resource, resourceId)`; if found, update it with the shallow-merged
`permissions` (and `fieldPermissions` when new ones were supplied), otherwise
create a new grant. -/
def grantPermission (db : PermDB) (userId : String) (resource : String)
    (resourceId : Option String) (permissions : PermObj)
    (fieldPermissions : Option FieldPermObj) : PermDB :=
  let existingPermission := getUserPermissions db userId
  match existingPermission.find? (fun p => p.resource == resource && p.resourceId == resourceId) with
  | some existing =>
    updatePermissionById db existing.id
      (some (jsSpread existing.permissions permissions))
      (match fieldPermissions with
       | some fp => some (jsSpreadF existing.fieldPermissions fp)
       | none => existing.fieldPermissions)
  | none => createPermission db userId resource resourceId permissions fieldPermissions

/-! ## Helper lemmas -/

/-- Reading back a submission after `updateFormSubmission` wrote it: when the
id was present in the store, the lookup returns exactly the patched record. -/
theorem getFormSubmissionById_update (db : SubDB) (sid : String) (ws : WorkflowState)
    (st : String) (sub : Submission) (h : getFormSubmissionById db sid = some sub) :
    getFormSubmissionById (updateFormSubmission db sid ws st) sid
      = some { workflowState := some ws, status := st } := by
  induction db with
  | nil => simp [getFormSubmissionById] at h
  | cons p rest ih =>
    cases hp : (p.1 == sid) with
    | true =>
      simp [getFormSubmissionById, updateFormSubmission, List.find?, hp]
    | false =>
      simp only [getFormSubmissionById, updateFormSubmission, List.map_cons,
        List.find?, hp, Bool.cond_false] at h ⊢
      exact ih h

/-! ## Claims about the workflow engine -/

/-- C1: for every successful `executeWorkflowAction` call, the returned and
persisted status is derived purely from the requested action: `approve` gives
`in_review` when a transition was found and `approved` when none was found,
`reject` gives `rejected`, `submit` gives `submitted`, and any other action
leaves the submission's prior status, regardless of whether a transition was
found. -/
theorem executeAction_status_derivation
    (workflow : Workflow) (db : SubDB) (submissionId action userId comments : String)
    (now : Nat) (sub : Submission) (cs : String) (db2 : SubDB) (res : WfResult)
    (hsub : getFormSubmissionById db submissionId = some sub)
    (hcs : resolveCurrentStage workflow sub = some cs)
    (hok : executeWorkflowAction workflow db submissionId action userId comments now
      = (db2, Except.ok res)) :
    res.status =
      (if action == "approve" then
        (if (findNextStage workflow cs action).isSome then "in_review" else "approved")
      else if action == "reject" then "rejected"
      else if action == "submit" then "submitted"
      else sub.status) ∧
    (getFormSubmissionById db2 submissionId).map Submission.status = some res.status := by
  unfold executeWorkflowAction at hok
  simp only [hsub] at hok
  simp only [hcs] at hok
  cases hfind : workflow.stages.find? (fun stage => stage.id == cs) with
  | none => rw [hfind] at hok; simp at hok
  | some cfg =>
    rw [hfind] at hok
    cases hperm : checkWorkflowPermission cfg userId action with
    | false => simp [hperm] at hok
    | true =>
      simp only [hperm, Bool.not_true, Bool.false_eq_true, if_false, Prod.mk.injEq,
        Except.ok.injEq] at hok
      obtain ⟨hdb2, hres⟩ := hok
      subst hdb2
      subst hres
      refine ⟨rfl, ?_⟩
      rw [getFormSubmissionById_update db submissionId _ _ sub hsub]
      rfl

/-- The two-stage demo definition of the spec's status-derivation scenarios:
stages `draft` and `review`, one transition `draft → review` on `approve`. -/
def demoStageDraft : Stage :=
  { id := "draft", name := "Draft", role := none, users := none,
    actions := ["approve", "reject", "submit"] }

/-- The `review` stage of the demo definition. -/
def demoStageReview : Stage :=
  { id := "review", name := "Review", role := none, users := none, actions := ["approve"] }

/-- The demo workflow definition. -/
def demoWorkflow : Workflow :=
  { stages := [demoStageDraft, demoStageReview],
    transitions := [{ «from» := "draft", «to» := "review", action := some "approve",
                      condition := none }] }

/-- A submission sitting at stage `draft` with empty history. -/
def demoSubmission : Submission :=
  { workflowState := some { currentStage := some "draft", history := [] },
    status := "submitted" }

/-- A one-submission store. -/
def demoDB : SubDB := [("s1", demoSubmission)]

/-- The history entry appended by approving the demo submission at time 0. -/
def demoEntry : HistoryEntry :=
  { stage := "draft", action := "approve", user := "u1", timestamp := 0, comments := "" }

/-- The store after approving the demo submission. -/
def demoDB2 : SubDB :=
  [("s1", { workflowState := some { currentStage := some "review", history := [demoEntry] },
            status := "in_review" })]

/-- The result of approving the demo submission. -/
def demoRes : WfResult :=
  { currentStage := some "review", status := "in_review", history := [demoEntry] }

/-- Witness for C1: approving the demo submission at `draft` yields status
`in_review` (a transition was found), both returned and persisted. -/
theorem executeAction_status_derivation_witness :
    demoRes.status =
      (if "approve" == "approve" then
        (if (findNextStage demoWorkflow "draft" "approve").isSome then "in_review" else "approved")
      else if "approve" == "reject" then "rejected"
      else if "approve" == "submit" then "submitted"
      else demoSubmission.status) ∧
    (getFormSubmissionById demoDB2 "s1").map Submission.status = some demoRes.status :=
  executeAction_status_derivation demoWorkflow demoDB "s1" "approve" "u1" "" 0
    demoSubmission "draft" demoDB2 demoRes (by decide) (by decide) rfl

/-- C2: every successful `executeWorkflowAction` call appends exactly one
history entry `\x7bstage := currentStage, action, user, timestamp, comments\x7d`
to the submission's history — in the returned result and in the persisted
record, even when no transition matched — and when authorization fails with
Forbidden, the store is returned unchanged (no entry appended, nothing
persisted). -/
theorem executeAction_history_append
    (workflow : Workflow) (db : SubDB) (submissionId action userId comments : String)
    (now : Nat) (sub : Submission) (cs : String)
    (hsub : getFormSubmissionById db submissionId = some sub)
    (hcs : resolveCurrentStage workflow sub = some cs) :
    (∀ db2 res,
      executeWorkflowAction workflow db submissionId action userId comments now
          = (db2, Except.ok res) →
      res.history = submissionHistory sub ++
          [{ stage := cs, action := action, user := userId, timestamp := now,
             comments := comments }] ∧
      ∃ ws : WorkflowState,
        getFormSubmissionById db2 submissionId
            = some { workflowState := some ws, status := res.status } ∧
        ws.history = submissionHistory sub ++
          [{ stage := cs, action := action, user := userId, timestamp := now,
             comments := comments }]) ∧
    (∀ db2,
      executeWorkflowAction workflow db submissionId action userId comments now
          = (db2, Except.error WfError.forbidden) →
      db2 = db) := by
  constructor
  · intro db2 res hok
    unfold executeWorkflowAction at hok
    simp only [hsub] at hok
    simp only [hcs] at hok
    cases hfind : workflow.stages.find? (fun stage => stage.id == cs) with
    | none => rw [hfind] at hok; simp at hok
    | some cfg =>
      rw [hfind] at hok
      cases hperm : checkWorkflowPermission cfg userId action with
      | false => simp [hperm] at hok
      | true =>
        simp only [hperm, Bool.not_true, Bool.false_eq_true, if_false, Prod.mk.injEq,
          Except.ok.injEq] at hok
        obtain ⟨hdb2, hres⟩ := hok
        subst hdb2
        subst hres
        cases hws : sub.workflowState with
        | none =>
          cases hnext : findNextStage workflow cs action with
          | none =>
            refine ⟨by simp [submissionHistory, hws], ?_⟩
            simp only [getFormSubmissionById_update db submissionId _ _ sub hsub]
            exact ⟨_, rfl, by simp [submissionHistory, hws]⟩
          | some ns =>
            refine ⟨by simp [submissionHistory, hws], ?_⟩
            simp only [getFormSubmissionById_update db submissionId _ _ sub hsub]
            exact ⟨_, rfl, by simp [submissionHistory, hws]⟩
        | some ws =>
          cases hnext : findNextStage workflow cs action with
          | none =>
            refine ⟨by simp [submissionHistory, hws], ?_⟩
            simp only [getFormSubmissionById_update db submissionId _ _ sub hsub]
            exact ⟨_, rfl, by simp [submissionHistory, hws]⟩
          | some ns =>
            refine ⟨by simp [submissionHistory, hws], ?_⟩
            simp only [getFormSubmissionById_update db submissionId _ _ sub hsub]
            exact ⟨_, rfl, by simp [submissionHistory, hws]⟩
  · intro db2 herr
    unfold executeWorkflowAction at herr
    simp only [hsub] at herr
    simp only [hcs] at herr
    cases hfind : workflow.stages.find? (fun stage => stage.id == cs) with
    | none => rw [hfind] at herr; simp at herr
    | some cfg =>
      rw [hfind] at herr
      cases hperm : checkWorkflowPermission cfg userId action with
      | false =>
        simp only [hperm, Bool.not_false, if_true, Prod.mk.injEq] at herr
        exact herr.1.symm
      | true =>
        simp only [hperm, Bool.not_true, Bool.false_eq_true, if_false, Prod.mk.injEq] at herr
        exact absurd herr.2 (by simp)

/-- Witness for C2: approving the demo submission appends exactly the one
entry `demoEntry` to its (empty) history. -/
theorem executeAction_history_append_witness :
    demoRes.history = submissionHistory demoSubmission ++ [demoEntry] :=
  (((executeAction_history_append demoWorkflow demoDB "s1" "approve" "u1" "" 0
      demoSubmission "draft" (by decide) (by decide)).1) demoDB2 demoRes rfl).1

/-- C5: `findNextStage` selects the first transition, in definition order,
whose `from` equals the current stage and whose `action` equals the requested
action or is unset; in particular, with two matching transitions the earlier
one determines the next stage. -/
theorem findNextStage_first_match
    (stages : List Stage) (pre mid post : List Transition) (t1 t2 : Transition)
    (cs action : String)
    (hpre : ∀ t ∈ pre, transitionMatches t cs action = false)
    (h1 : transitionMatches t1 cs action = true)
    (h2 : transitionMatches t2 cs action = true) :
    findNextStage { stages := stages, transitions := pre ++ t1 :: (mid ++ t2 :: post) } cs action
      = some t1.«to» := by
  have hfpre : pre.find? (fun t => transitionMatches t cs action) = none := by
    rw [List.find?_eq_none]
    intro t ht
    simp [hpre t ht]
  have hf : (pre ++ t1 :: (mid ++ t2 :: post)).find?
      (fun t => transitionMatches t cs action) = some t1 := by
    rw [List.find?_append, hfpre, Option.none_or]
    exact List.find?_cons_of_pos _ h1
  unfold findNextStage
  simp only [hf]
  cases t1.condition <;> rfl

/-- The earlier of C5's two ambiguous transitions from stage `a` on approve. -/
def c5t1 : Transition := { «from» := "a", «to» := "b", action := some "approve", condition := none }

/-- The later of C5's two ambiguous transitions from stage `a` on approve. -/
def c5t2 : Transition := { «from» := "a", «to» := "c", action := some "approve", condition := none }

/-- Witness for C5: with the ambiguous transitions `a → b` and `a → c`, both
on `approve`, the earlier one wins and the next stage is `b`. -/
theorem findNextStage_first_match_witness :
    findNextStage { stages := [], transitions := [c5t1, c5t2] } "a" "approve" = some "b" :=
  findNextStage_first_match [] [] [] [] c5t1 c5t2 "a" "approve"
    (by intro t ht; cases ht) (by decide) (by decide)

/-- C6: a non-empty `users` allow-list on the current stage is decisive —
a user whose id is not a member of the list is denied whatever the stage's
`role` is (the allow-list takes precedence over role). -/
theorem stage_users_precedence
    (stageConfig : Stage) (userId action : String) (us : List String)
    (husers : stageConfig.users = some us)
    (hne : 0 < us.length)
    (hmem : us.contains userId = false) :
    checkWorkflowPermission stageConfig userId action = false := by
  have hmem2 : userId ∉ us := by simpa using hmem
  unfold checkWorkflowPermission
  cases hact : stageConfig.actions.contains action with
  | false => simp [hact]
  | true =>
    cases hrole : stageConfig.role with
    | none => simp [hact, hrole, husers, hmem2, hne]
    | some r => simp [hact, hrole, husers, hmem2, hne, checkUserRole]

/-- Witness for C6: a stage allowing only user `alice` denies `bob`, even
though the stage's role requirement would not stop him. -/
theorem stage_users_precedence_witness :
    checkWorkflowPermission
      { id := "review", name := "Review", role := some "manager", users := some ["alice"],
        actions := ["approve"] } "bob" "approve" = false :=
  stage_users_precedence
    { id := "review", name := "Review", role := some "manager", users := some ["alice"],
      actions := ["approve"] } "bob" "approve" ["alice"] rfl (by decide) (by decide)

/-- C3 (code behavior at the failing input): a stage whose `role` is set to
`admin` and whose `users` list is empty permits the action for a caller that
does not hold the admin role, because the source's `checkUserRole` is a stub
that returns `true` unconditionally — the role-equality requirement stated by
the spec is not enforced by the code. -/
theorem stage_role_check_is_stub :
    checkWorkflowPermission
      { id := "review", name := "Review", role := some "admin", users := some [],
        actions := ["approve"] } "user_without_admin_role" "approve" = true ∧
    checkUserRole "user_without_admin_role" "admin" = true :=
  ⟨by decide, rfl⟩

/-! ## Claims about the permission evaluator -/

/-- C7: `checkPermission` fails closed: any error raised by the body — the
user lookup or the stored-grant lookup — is caught and converted into a deny,
and a user id that resolves to no user yields `false`; no exception reaches
the caller. -/
theorem checkPermission_fail_closed
    (db : PermDB) (userId resource action : String) (resourceId : Option String) :
    (∀ e, checkPermissionE db userId resource action resourceId = Except.error e →
      checkPermission db userId resource action resourceId = false) ∧
    (getUserById db userId = Except.ok none →
      checkPermission db userId resource action resourceId = false) := by
  constructor
  · intro e he
    unfold checkPermission
    rw [he]
  · intro hu
    unfold checkPermission checkPermissionE
    rw [hu]

/-- A store whose user lookup raises. -/
def c7db : PermDB :=
  { users := [], grants := [], nextId := 0, userErr := true, grantErr := false }

/-- Witness for C7: with a failing user lookup, `checkPermission` returns
`false` instead of propagating the error. -/
theorem checkPermission_fail_closed_witness :
    checkPermission c7db "u1" "forms" "read" none = false :=
  (checkPermission_fail_closed c7db "u1" "forms" "read" none).1 () rfl

/-- The C4 user: not super_admin, two embedded entries for resource `forms`,
only the second of which lists the `update` action. -/
def c4user : User :=
  { role := "user",
    permissions := some [ { resource := "forms", actions := ["read"] },
                          { resource := "forms", actions := ["update"] } ] }

/-- The C4 store: just the C4 user, no stored grants. -/
def c4db : PermDB :=
  { users := [("u1", c4user)], grants := [], nextId := 0, userErr := false, grantErr := false }

/-- C4 counterexample: some entry of the user's embedded permissions matches
resource `forms` and lists `update`, the user exists and is not super_admin,
yet `checkPermission` returns `false` — the scan is not existential over all
entries; only the first entry whose resource matches is consulted. -/
theorem checkPermission_not_existential_scan :
    (c4user.permissions.getD []).any
        (fun p => (p.resource == "forms" || p.resource == "*") && p.actions.contains "update")
      = true ∧
    c4user.role ≠ "super_admin" ∧
    checkPermission c4db "u1" "forms" "update" none = false := by decide

/-- C4 amended: the embedded scan consults only the FIRST entry whose
resource equals the target or `*`: with the user loaded, not super_admin, and
`gp` the first resource-matching entry, the call returns `true` exactly when
`gp` itself lists the action or the stored-grant lookup allows it — entries
after `gp` are never consulted. -/
theorem checkPermission_global_first_entry
    (db : PermDB) (userId resource action : String) (resourceId : Option String)
    (user : User) (perms : List GlobalPerm) (gp : GlobalPerm)
    (huser : getUserById db userId = Except.ok (some user))
    (hrole : user.role ≠ "super_admin")
    (hperms : user.permissions = some perms)
    (hfind : perms.find? (fun perm => perm.resource == resource || perm.resource == "*")
        = some gp) :
    checkPermission db userId resource action resourceId =
      (gp.actions.contains action
        || storedGrantDecision db userId resource action resourceId) := by
  have hrole2 : (user.role == "super_admin") = false := by simpa using hrole
  unfold checkPermission checkPermissionE globalScan
  rw [huser]
  simp only [hrole2, hperms, hfind, Bool.false_eq_true, if_false]
  cases hact : gp.actions.contains action with
  | true => simp [hact]
  | false =>
    simp only [hact, Bool.false_eq_true, if_false, Bool.false_or]
    unfold storedGrantDecision
    cases hg : findOneGrant db userId resource resourceId with
    | error e => simp [hg]
    | ok v =>
      cases v with
      | none => simp [hg]
      | some permission =>
        cases hp : permission.permissions with
        | none => simp [hg, hp]
        | some po => simp [hg, hp]

/-- Witness for C4's amended claim: for action `read`, listed by the first
matching entry, the call allows. -/
theorem checkPermission_global_first_entry_witness :
    checkPermission c4db "u1" "forms" "read" none =
      ((GlobalPerm.mk "forms" ["read"]).actions.contains "read"
        || storedGrantDecision c4db "u1" "forms" "read" none) :=
  checkPermission_global_first_entry c4db "u1" "forms" "read" none c4user
    [{ resource := "forms", actions := ["read"] }, { resource := "forms", actions := ["update"] }]
    { resource := "forms", actions := ["read"] }
    rfl (by decide) rfl (by decide)

/-- The C8 user: not super_admin, no embedded global permissions. -/
def c8user : User := { role := "user", permissions := some [] }

/-- The C8 stored grant: wildcard resource `*`, allowing `read`. -/
def c8grant : Grant :=
  { id := 1, user := "u2", resource := "*", resourceId := none,
    permissions := some [("read", true)], fieldPermissions := none }

/-- The C8 store. -/
def c8db : PermDB :=
  { users := [("u2", c8user)], grants := [c8grant], nextId := 2,
    userErr := false, grantErr := false }

/-- C8 counterexample: the user holds a stored grant with resource `*` whose
permissions allow `read`, has no matching embedded global permission and is
not super_admin — yet `checkPermission` for resource `forms` returns `false`:
the stored wildcard grant is not applied to other resources. -/
theorem wildcard_stored_grant_not_universal :
    c8user.role ≠ "super_admin" ∧
    globalScan c8user "forms" "read" = false ∧
    c8grant ∈ c8db.grants ∧
    c8grant.user = "u2" ∧
    c8grant.resource = "*" ∧
    jsGet (c8grant.permissions.getD []) "read" = some true ∧
    checkPermission c8db "u2" "forms" "read" none = false := by decide

/-- C8 amended: the stored-grant lookup matches the `resource` field
literally against the requested resource, so a grant with resource `*` is
found only when the requested resource is itself `*`; whenever no stored
grant matches the query exactly, the call denies — even when the store holds
a wildcard grant of the user allowing the action. -/
theorem stored_grant_matched_literally
    (db : PermDB) (userId resource action : String) (resourceId : Option String)
    (user : User)
    (huser : getUserById db userId = Except.ok (some user))
    (hrole : user.role ≠ "super_admin")
    (hglob : globalScan user resource action = false)
    (hnone : db.grants.find? (fun g => grantMatchesQuery g userId resource resourceId)
        = none) :
    checkPermission db userId resource action resourceId = false := by
  have hrole2 : (user.role == "super_admin") = false := by simpa using hrole
  unfold checkPermission checkPermissionE
  rw [huser]
  simp only [hrole2, hglob, Bool.false_eq_true, if_false]
  unfold findOneGrant
  cases hge : db.grantErr with
  | true => simp [hge]
  | false => simp [hge, hnone]

/-- Witness for C8's amended claim: at the C8 store, the `forms` request
denies. -/
theorem stored_grant_matched_literally_witness :
    checkPermission c8db "u2" "forms" "read" none = false :=
  stored_grant_matched_literally c8db "u2" "forms" "read" none c8user
    rfl (by decide) (by decide) (by decide)

/-- The C10 user: not super_admin, no embedded permissions list. -/
def c10user : User := { role := "user", permissions := none }

/-- The C10 stored grant: resource-wide (no `resourceId`), allowing `read`. -/
def c10grant : Grant :=
  { id := 0, user := "u3", resource := "forms", resourceId := none,
    permissions := some [("read", true)], fieldPermissions := none }

/-- The C10 store. -/
def c10db : PermDB :=
  { users := [("u3", c10user)], grants := [c10grant], nextId := 1,
    userErr := false, grantErr := false }

/-- C10: instance-scoped lookup has no fallback to resource-wide grants:
with a `resourceId` supplied and no stored grant matching exactly
`(user, resource, resourceId)`, the call returns `false`, even though the
user holds a resource-wide grant (no `resourceId`) whose permissions allow
the action. -/
theorem instance_scope_no_fallback
    (db : PermDB) (userId resource action rid : String)
    (user : User) (g : Grant)
    (huser : getUserById db userId = Except.ok (some user))
    (hrole : user.role ≠ "super_admin")
    (hglob : globalScan user resource action = false)
    (hg : g ∈ db.grants) (hgu : g.user = userId) (hgr : g.resource = resource)
    (hgrid : g.resourceId = none)
    (hallow : jsGet (g.permissions.getD []) action = some true)
    (hnone : db.grants.find? (fun x => grantMatchesQuery x userId resource (some rid))
        = none) :
    checkPermission db userId resource action (some rid) = false := by
  have hrole2 : (user.role == "super_admin") = false := by simpa using hrole
  unfold checkPermission checkPermissionE
  rw [huser]
  simp only [hrole2, hglob, Bool.false_eq_true, if_false]
  unfold findOneGrant
  cases hge : db.grantErr with
  | true => simp [hge]
  | false => simp [hge, hnone]

/-- Witness for C10: the C10 user's resource-wide `read` grant does not make
an instance-scoped `read` request succeed. -/
theorem instance_scope_no_fallback_witness :
    checkPermission c10db "u3" "forms" "read" (some "item1") = false :=
  instance_scope_no_fallback c10db "u3" "forms" "read" "item1" c10user c10grant
    rfl (by decide) (by decide) (by decide) (by decide) (by decide) (by decide)
    (by decide) (by decide)

/-! ## Claims about grant management -/

/-- Lookup over an object spread: a binding of the overriding object wins;
otherwise the base object is consulted. -/
theorem jsGet_jsSpread (a : Option PermObj) (b : PermObj) (k : String) :
    jsGet (jsSpread a b) k = (jsGet b k).or (jsGet (a.getD []) k) := by
  unfold jsGet jsSpread
  rw [List.reverse_append, List.find?_append]
  cases hb : b.reverse.find? (fun p => p.1 == k) with
  | none => simp [hb]
  | some v => simp [hb]

/-- Mapping an id-preserving update over a store with unique ids and then
finding by that id returns the updated grant. -/
theorem find?_update_by_id (l : List Grant) (g : Grant) (f : Grant → Grant)
    (hf : ∀ x, (f x).id = x.id)
    (hmem : g ∈ l)
    (hids : l.Pairwise (fun a b => a.id ≠ b.id)) :
    (l.map (fun x => bif x.id == g.id then f x else x)).find? (fun x => x.id == g.id)
      = some (f g) := by
  induction l with
  | nil => cases hmem
  | cons a rest ih =>
    rcases List.mem_cons.mp hmem with hga | hgr
    · subst hga
      simp [List.find?, hf]
    · have hne : a.id ≠ g.id := (List.pairwise_cons.mp hids).1 g hgr
      have hbeq : (a.id == g.id) = false := by simpa using hne
      simp only [List.map_cons, List.find?, hbeq, Bool.cond_false]
      exact ih hgr (List.pairwise_cons.mp hids).2

/-- C9: `grantPermission` is upsert-with-merge, not replace: when the user
already holds a grant `g` for `(resource, resourceId)`, granting again keeps
the store size unchanged (no duplicate row), keeps the row's id, replaces its
permission object by the shallow merge of the old one with the new keys — a
key of the new object overrides, any other key keeps its old value — and
merges `fieldPermissions` likewise when new ones were supplied. -/
theorem grantPermission_merges
    (db : PermDB) (userId resource : String) (resourceId : Option String)
    (ps : PermObj) (fps : Option FieldPermObj) (g : Grant)
    (hids : db.grants.Pairwise (fun a b => a.id ≠ b.id))
    (hfind : (getUserPermissions db userId).find?
        (fun p => p.resource == resource && p.resourceId == resourceId) = some g) :
    ((grantPermission db userId resource resourceId ps fps).grants.length
        = db.grants.length) ∧
    ∃ g2, (grantPermission db userId resource resourceId ps fps).grants.find?
        (fun x => x.id == g.id) = some g2 ∧
      g2.permissions = some (jsSpread g.permissions ps) ∧
      g2.fieldPermissions = (match fps with
        | some fp => some (jsSpreadF g.fieldPermissions fp)
        | none => g.fieldPermissions) ∧
      (∀ k, jsGet (jsSpread g.permissions ps) k
          = (jsGet ps k).or (jsGet (g.permissions.getD []) k)) := by
  have hmem : g ∈ db.grants := by
    have h1 := List.mem_of_find?_eq_some hfind
    unfold getUserPermissions at h1
    exact (List.mem_filter.mp (List.mem_reverse.mp h1)).1
  unfold grantPermission
  simp only [hfind]
  unfold updatePermissionById
  constructor
  · simp
  · exact ⟨_, find?_update_by_id db.grants g _ (fun x => rfl) hmem hids, rfl, rfl,
      fun k => jsGet_jsSpread g.permissions ps k⟩

/-- The empty permission store. -/
def c9db0 : PermDB :=
  { users := [], grants := [], nextId := 0, userErr := false, grantErr := false }

/-- The store after granting `read` on `forms` to `u9`. -/
def c9db1 : PermDB := grantPermission c9db0 "u9" "forms" none [("read", true)] none

/-- The grant created by the first `grantPermission` call of C9's scenario. -/
def c9g : Grant :=
  { id := 0, user := "u9", resource := "forms", resourceId := none,
    permissions := some [("read", true)], fieldPermissions := none }

/-- Witness for C9: granting `read : true` and then `update : true` to the
same `(user, resource, resourceId)` leaves one grant whose permissions make
both `read` and `update` true. -/
theorem grantPermission_merges_witness :
    ((grantPermission c9db1 "u9" "forms" none [("update", true)] none).grants.length
        = c9db1.grants.length) ∧
    jsGet (jsSpread c9g.permissions [("update", true)]) "read" = some true ∧
    jsGet (jsSpread c9g.permissions [("update", true)]) "update" = some true :=
  ⟨(grantPermission_merges c9db1 "u9" "forms" none [("update", true)] none c9g
      (by decide) (by decide)).1, by decide, by decide⟩

end FormBuilder
